import Mathlib

set_option maxRecDepth 100000

/-!
Shallow embedding of `app.py`, a small Flask application that converts
ColdFusion source code to a target language by calling an external
OpenAI chat-completion API.

Modelling choices:
* The external completion API is passed in as an oracle
  `api : ApiRequest → Except String ApiResponse`; an `Except.error e`
  models a Python exception raised by the call, carrying `str(e)`.
* Every modelled entry point returns, besides its response, the list of
  `ApiRequest`s it issued, so "exactly one outbound call" and "no
  outbound call" are statements about that list.
* The `/convert` route additionally returns a list of file-system
  events (`save` / `remove` of the temporary upload file), so claims
  about the temporary file's deletion are statements about that list.
* Python strings are Lean `String`s; operations that the Lean kernel
  cannot reduce (`String.splitOn`, `String.toLower`, ...) are
  re-implemented over `String.data : List Char`.
* An uploaded file's content is `Except String String`: `Except.ok`
  carries the UTF-8-decoded text, `Except.error` carries the
  stringified exception raised while reading/decoding the saved file
  (the one failure mode of the `open`/`read` block at app.py:132-133).
-/

/-- Token-usage record reported by the completion API
(`response.usage`, passed through unmodified at app.py:98). -/
structure Usage where
  prompt_tokens : Nat
  completion_tokens : Nat
  total_tokens : Nat
deriving DecidableEq, Repr

/-- The payload of one outbound chat-completion call
(the keyword arguments of `openai.ChatCompletion.create` at
app.py:85-93).  `temperature` is the exact rational 1/10 standing for
the Python float literal `0.1`. -/
structure ApiRequest where
  model : String
  system_message : String
  user_message : String
  max_tokens : Nat
  temperature : ℚ
deriving DecidableEq, Repr

/-- The rational 1/10, the exact value of the Python float literal
`0.1` (app.py:92); built by the `Rat` constructor so that it reduces
in the kernel. -/
def oneTenth : ℚ := ⟨1, 10, by decide, by decide⟩

/-- Shape of a successful completion response: a list of choice texts
(`response.choices[i].message.content`) plus usage counters. -/
structure ApiResponse where
  choices : List String
  usage : Usage
deriving DecidableEq, Repr

/-- The JSON object the application returns:
`{'success': True, 'converted_code': .., 'usage': ..}` or
`{'success': False, 'error': ..}`. -/
inductive ConvResponse where
  | ok (converted_code : String) (usage : Usage)
  | err (error : String)
deriving DecidableEq, Repr

/-- `CodeConverter.supported_languages` (app.py:45-52), an
insertion-ordered dict modelled as an association list. -/
def supported_languages : List (String × String) :=
  [("react", "React with JavaScript/TypeScript"),
   ("ruby", "Ruby on Rails"),
   ("python", "Python with Flask/Django"),
   ("php", "PHP"),
   ("java", "Java with Spring"),
   ("csharp", "C# with ASP.NET")]

/-- `self.supported_languages.get(target_language, target_language)`
(app.py:59): the display label of a known key, or the key itself. -/
def displayLabel (target_language : String) : String :=
  (supported_languages.lookup target_language).getD target_language

/-- Fixed text of the f-string `base_prompt` (app.py:58-82) before the
first interpolation. -/
def promptPart1 : String :=
  "\nYou are an expert developer skilled in ColdFusion and "

/-- Fixed prompt text between the display label and the first
`target_language` interpolation. -/
def promptPart2 : String :=
  ".\n\nPlease convert the following ColdFusion code to "

/-- Fixed prompt text between the first and second `target_language`
interpolations (requirements 1 and 2). -/
def promptPart3 : String :=
  ". \n\nRequirements:\n1. Maintain the same functionality and logic\n2. Follow best practices for "

/-- Fixed prompt text between the second `target_language`
interpolation and the `custom_prompt` interpolation. -/
def promptPart4 : String :=
  "\n3. Include necessary imports/dependencies\n4. Add comments explaining complex conversions\n5. Ensure the code is production-ready\n6. Handle any ColdFusion-specific features appropriately\n\n"

/-- Fixed prompt text between `custom_prompt` and the fenced
`coldfusion_code` interpolation. -/
def promptPart5 : String :=
  "\n\nColdFusion Code to Convert:\n```coldfusion\n"

/-- Fixed prompt text after the fenced source code. -/
def promptPart6 : String :=
  "\n```\n\nPlease provide:\n1. The converted code\n2. A brief explanation of key changes made\n3. Any additional setup or dependencies needed\n"

/-- The assembled user prompt `base_prompt` (app.py:58-82): pure string
interpolation of the display label, the target key (twice), the custom
prompt and the source code into the fixed template. -/
def base_prompt (coldfusion_code target_language custom_prompt : String) : String :=
  promptPart1 ++ displayLabel target_language ++ promptPart2 ++ target_language ++
    promptPart3 ++ target_language ++ promptPart4 ++ custom_prompt ++
    promptPart5 ++ coldfusion_code ++ promptPart6

/-- Fixed system message of the two-message conversation (app.py:88). -/
def system_message : String :=
  "You are an expert code converter specializing in migrating legacy ColdFusion applications to modern frameworks."

/-- The single `ApiRequest` that `CodeConverter.convert_code` issues
(app.py:85-93): model `gpt-4`, the fixed system message, the assembled
`base_prompt` as user message, `max_tokens=4000`, `temperature=0.1`. -/
def convertRequest (coldfusion_code target_language custom_prompt : String) : ApiRequest :=
  { model := "gpt-4"
    system_message := system_message
    user_message := base_prompt coldfusion_code target_language custom_prompt
    max_tokens := 4000
    temperature := oneTenth }

/-- `CodeConverter.convert_code` (app.py:54-106).  Returns the response
dict together with the list of outbound calls made.  The whole body sits
in a `try`/`except Exception` that turns any raised exception into
`{'success': False, 'error': str(e)}`; the two possible exceptions are
the API call itself (`api req = .error e`) and the `response.choices[0]`
subscript on an empty choice list (an `IndexError`, whose `str` is
"list index out of range"). -/
def convert_code (api : ApiRequest → Except String ApiResponse)
    (coldfusion_code target_language custom_prompt : String) :
    ConvResponse × List ApiRequest :=
  match api (convertRequest coldfusion_code target_language custom_prompt) with
  | .error e => (.err e, [convertRequest coldfusion_code target_language custom_prompt])
  | .ok resp =>
    match resp.choices.head? with
    | none => (.err "list index out of range",
        [convertRequest coldfusion_code target_language custom_prompt])
    | some c => (.ok c resp.usage,
        [convertRequest coldfusion_code target_language custom_prompt])

/-- `ALLOWED_EXTENSIONS = {'cfm', 'cfc', 'cfml', 'txt'}` (app.py:38),
as character lists for kernel-reducible comparison. -/
def ALLOWED_EXTENSIONS : List (List Char) :=
  ["cfm".data, "cfc".data, "cfml".data, "txt".data]

/-- ASCII lower-casing of one character, as Python `str.lower` acts on
the ASCII extensions involved here. -/
def pyLowerChar (c : Char) : Char :=
  if 65 ≤ c.toNat ∧ c.toNat ≤ 90 then Char.ofNat (c.toNat + 32) else c

/-- The characters after the last `'.'` of the list, or `none` when no
`'.'` occurs: `filename.rsplit('.', 1)[1]` guarded by
`'.' in filename`. -/
def afterLastDot (cs : List Char) : Option (List Char) :=
  cs.foldl (fun acc c => if c = '.' then some [] else acc.map (fun l => l ++ [c])) none

/-- `allowed_file` (app.py:40-41):
`'.' in filename and filename.rsplit('.', 1)[1].lower() in ALLOWED_EXTENSIONS`. -/
def allowed_file (filename : String) : Bool :=
  match afterLastDot filename.data with
  | none => false
  | some ext => ALLOWED_EXTENSIONS.contains (ext.map pyLowerChar)

/-- Whitespace as stripped by Python `str.strip()` (ASCII part; the
claims only involve ASCII input). -/
def pyIsSpace (c : Char) : Bool :=
  c = ' ' || c = '\t' || c = '\n' || c = '\r' || c = '\x0b' || c = '\x0c'

/-- `not s.strip()` (app.py:138): true iff the string is empty or
whitespace-only. -/
def pyBlank (s : String) : Bool :=
  s.data.all pyIsSpace

/-- Python falsiness of `request.form.get('target_language')`
(app.py:141): `None` when the field is absent, and the empty string,
are falsy. -/
def optFalsy : Option String → Bool
  | none => true
  | some s => decide (s = "")

/-- One file-system effect of the `/convert` route on the temporary
upload file: `file.save(filepath)` or `os.remove(filepath)`. -/
inductive FsEvent where
  | save (filename : String)
  | remove (filename : String)
deriving DecidableEq, Repr

/-- An entry of `request.files`: the submitted filename, and the
outcome of reading the saved file back as UTF-8 (app.py:132-133) —
`Except.ok text`, or `Except.error msg` when the read raises (e.g. a
`UnicodeDecodeError`), with `msg = str(e)`. -/
structure Upload where
  filename : String
  content : Except String String
deriving Repr

/-- The form data of one `POST /convert` request (app.py:119-125):
`target_language` is `none` when the field is absent, `custom_prompt`
and `code_input` default to `""`, `file` is `none` when no file part is
present. -/
structure ConvertForm where
  target_language : Option String
  custom_prompt : String
  code_input : String
  file : Option Upload
deriving Repr

/-- The observable outcome of one `/convert` request: the JSON
response, the outbound API calls made, and the file-system events on
the temporary upload file, each in order. -/
structure RouteOutcome where
  response : ConvResponse
  apiCalls : List ApiRequest
  fsEvents : List FsEvent
deriving DecidableEq, Repr

/-- The tail of the `/convert` route after file handling
(app.py:138-147): the blank-source check, the missing-target check,
then the call to `converter.convert_code`.  When the check at
app.py:141 fires, `target_language` is falsy, so the `getD ""` used to
pass the key onward in the remaining branch is never reached with a
missing key. -/
def validate_and_convert (api : ApiRequest → Except String ApiResponse)
    (coldfusion_code : String) (target_language : Option String)
    (custom_prompt : String) : ConvResponse × List ApiRequest :=
  if pyBlank coldfusion_code then
    (.err "No ColdFusion code provided", [])
  else if optFalsy target_language then
    (.err "No target language specified", [])
  else
    convert_code api coldfusion_code (target_language.getD "") custom_prompt

/-- `validate_and_convert` packaged as a `RouteOutcome`; `fs` carries
the file-system events performed by the file handling that precedes
the checks. -/
def route_core (api : ApiRequest → Except String ApiResponse)
    (coldfusion_code : String) (target_language : Option String)
    (custom_prompt : String) (fs : List FsEvent) : RouteOutcome :=
  { response := (validate_and_convert api coldfusion_code target_language custom_prompt).1
    apiCalls := (validate_and_convert api coldfusion_code target_language custom_prompt).2
    fsEvents := fs }

/-- The `/convert` route handler, named `convert_code` in app.py
(115-151); renamed here to avoid clashing with the converter method.
File handling (app.py:124-136): an upload with a non-empty filename
and an allowed extension is saved, read back (replacing `code_input`),
and removed — but `os.remove` is only reached when the read succeeds;
a read/decode exception propagates to the route's outer `except`,
which returns `{'success': False, 'error': str(e)}` with the saved
file still on disk.  The saved path runs through `secure_filename`;
since save, read and remove all use the same `filepath` variable, the
events carry the submitted filename. -/
def convert_route (api : ApiRequest → Except String ApiResponse)
    (form : ConvertForm) : RouteOutcome :=
  match form.file with
  | some u =>
    if !u.filename.data.isEmpty && allowed_file u.filename then
      match u.content with
      | .ok text =>
        route_core api text form.target_language form.custom_prompt
          [.save u.filename, .remove u.filename]
      | .error e =>
        { response := .err e, apiCalls := [], fsEvents := [.save u.filename] }
    else
      route_core api form.code_input form.target_language form.custom_prompt []
  | none =>
    route_core api form.code_input form.target_language form.custom_prompt []

/-- The source text the `/convert` route ends up validating and
converting, after any file-upload substitution: the decoded content of
an accepted upload, otherwise the inline `code_input`; `none` when an
accepted upload fails to decode (the request errors out before any
source text exists). -/
def effectiveSource (form : ConvertForm) : Option String :=
  match form.file with
  | some u =>
    if !u.filename.data.isEmpty && allowed_file u.filename then
      match u.content with
      | .ok text => some text
      | .error _ => none
    else some form.code_input
  | none => some form.code_input

/-- Response of `GET /health` (app.py:153-155). -/
structure HealthResponse where
  status : String
  supported_langs : List String
deriving DecidableEq, Repr

/-- The `/health` handler (app.py:153-155), paired with the (empty)
list of outbound API calls it makes. -/
def health_check : HealthResponse × List ApiRequest :=
  ({ status := "healthy", supported_langs := supported_languages.map Prod.fst }, [])

/-- What the process does at startup: exit with a code before serving,
or serve on a port. -/
inductive StartupOutcome where
  | exited (code : Nat)
  | serving (port : Nat)
deriving DecidableEq, Repr

/-- The `__main__` guard (app.py:157-177), the program's entry point
under `python app.py`: when `OPENAI_API_KEY` is unset (or empty, both
falsy) the process prints an error and calls `exit(1)` before
`app.run`; otherwise it serves on `PORT` (already-parsed integer,
default 5000). -/
def main_guard (openai_api_key : Option String) (env_port : Option Nat) : StartupOutcome :=
  if optFalsy openai_api_key then .exited 1
  else .serving (env_port.getD 5000)

/-- Whether a startup outcome ever serves an HTTP request. -/
def servesRequests : StartupOutcome → Bool
  | .exited _ => false
  | .serving _ => true

/-! ## Helper lemmas -/

/-- `oneTenth` is the rational number 1/10. -/
theorem oneTenth_eq : oneTenth = 1 / 10 := by
  rw [oneTenth]; norm_num [Rat.mk'_eq_divInt, Rat.divInt_eq_div]

/-- `convert_code` always issues exactly the one request
`convertRequest`, whatever the oracle returns. -/
theorem convert_code_calls (api : ApiRequest → Except String ApiResponse)
    (coldfusion_code target_language custom_prompt : String) :
    (convert_code api coldfusion_code target_language custom_prompt).2 =
      [convertRequest coldfusion_code target_language custom_prompt] := by
  cases h : api (convertRequest coldfusion_code target_language custom_prompt) with
  | error e => simp only [convert_code, h]
  | ok resp =>
    cases h2 : resp.choices.head? with
    | none => simp only [convert_code, h, h2]
    | some c => simp only [convert_code, h, h2]

/-- When the effective source text exists, the route reduces to
`route_core` on it (for some list of file-system events). -/
theorem route_matches_effective (api : ApiRequest → Except String ApiResponse)
    (form : ConvertForm) (s : String) (hs : effectiveSource form = some s) :
    ∃ fs, convert_route api form =
      route_core api s form.target_language form.custom_prompt fs := by
  cases hf : form.file with
  | none =>
    simp only [effectiveSource, hf, Option.some.injEq] at hs
    exact ⟨[], by simp only [convert_route, hf, hs]⟩
  | some u =>
    by_cases hcond : (!u.filename.data.isEmpty && allowed_file u.filename) = true
    · cases hc : u.content with
      | ok text =>
        have hst : text = s := by
          simpa only [effectiveSource, hf, hcond, if_true, hc,
            Option.some.injEq] using hs
        refine ⟨[.save u.filename, .remove u.filename], ?_⟩
        simp only [convert_route, hf, hcond, if_true, hc, hst]
      | error e =>
        simp only [effectiveSource, hf, hcond, if_true, hc] at hs
        exact Option.noConfusion hs
    · have hcond' : (!u.filename.data.isEmpty && allowed_file u.filename) = false :=
        Bool.eq_false_iff.mpr hcond
      have hst : form.code_input = s := by
        simpa only [effectiveSource, hf, hcond', Bool.false_eq_true, if_false,
          Option.some.injEq] using hs
      exact ⟨[], by simp only [convert_route, hf, hcond', Bool.false_eq_true, if_false, hst]⟩

/-- A concrete oracle whose call always raises, with `str(e) = "boom"`. -/
def apiBoom : ApiRequest → Except String ApiResponse := fun _ => .error "boom"

/-! ## Claims -/

/-- C1: for every source text that is non-empty after trimming and
every target language key in the supported-language map, convert_code
issues exactly one outbound completion call whose user prompt contains
the source text verbatim and the language's display label, with
temperature 0.1 and a maximum of 4000 output tokens. -/
theorem convert_code_single_call (api : ApiRequest → Except String ApiResponse)
    (coldfusion_code target_language custom_prompt : String)
    (hcode : pyBlank coldfusion_code = false)
    (htarget : (supported_languages.lookup target_language).isSome = true) :
    (convert_code api coldfusion_code target_language custom_prompt).2 =
      [convertRequest coldfusion_code target_language custom_prompt] ∧
    (∃ pre post, (convertRequest coldfusion_code target_language custom_prompt).user_message =
      pre ++ coldfusion_code ++ post) ∧
    (∃ pre post, (convertRequest coldfusion_code target_language custom_prompt).user_message =
      pre ++ displayLabel target_language ++ post) ∧
    (convertRequest coldfusion_code target_language custom_prompt).temperature = 1 / 10 ∧
    (convertRequest coldfusion_code target_language custom_prompt).max_tokens = 4000 := by
  refine ⟨convert_code_calls api coldfusion_code target_language custom_prompt, ?_, ?_, ?_, rfl⟩
  · exact ⟨promptPart1 ++ displayLabel target_language ++ promptPart2 ++ target_language ++
      promptPart3 ++ target_language ++ promptPart4 ++ custom_prompt ++ promptPart5,
      promptPart6, rfl⟩
  · refine ⟨promptPart1, promptPart2 ++ target_language ++ promptPart3 ++ target_language ++
      promptPart4 ++ custom_prompt ++ promptPart5 ++ coldfusion_code ++ promptPart6, ?_⟩
    simp only [convertRequest, base_prompt, String.append_assoc]
  · simpa only [convertRequest] using oneTenth_eq

/-- Witness for C1 at a concrete non-blank source and the known key
"python". -/
theorem convert_code_single_call_witness :
    pyBlank "<cfset x = 1>" = false ∧
    (supported_languages.lookup "python").isSome = true ∧
    ((convert_code apiBoom "<cfset x = 1>" "python" "").2 =
        [convertRequest "<cfset x = 1>" "python" ""] ∧
      (∃ pre post, (convertRequest "<cfset x = 1>" "python" "").user_message =
        pre ++ "<cfset x = 1>" ++ post) ∧
      (∃ pre post, (convertRequest "<cfset x = 1>" "python" "").user_message =
        pre ++ displayLabel "python" ++ post) ∧
      (convertRequest "<cfset x = 1>" "python" "").temperature = 1 / 10 ∧
      (convertRequest "<cfset x = 1>" "python" "").max_tokens = 4000) :=
  ⟨by decide, by decide,
    convert_code_single_call apiBoom "<cfset x = 1>" "python" "" (by decide) (by decide)⟩

/-- C2: an unknown target key is not an error: the key itself is used
verbatim as the display label in the assembled prompt, and the single
outbound call proceeds exactly as for a known key. -/
theorem unknown_key_display_fallback (api : ApiRequest → Except String ApiResponse)
    (coldfusion_code target_language custom_prompt : String)
    (h : supported_languages.lookup target_language = none) :
    displayLabel target_language = target_language ∧
    (convert_code api coldfusion_code target_language custom_prompt).2 =
      [convertRequest coldfusion_code target_language custom_prompt] ∧
    (∃ pre post, (convertRequest coldfusion_code target_language custom_prompt).user_message =
      pre ++ target_language ++ post) := by
  have hl : displayLabel target_language = target_language := by
    unfold displayLabel; rw [h]; rfl
  refine ⟨hl, convert_code_calls api coldfusion_code target_language custom_prompt, ?_⟩
  refine ⟨promptPart1, promptPart2 ++ target_language ++ promptPart3 ++ target_language ++
    promptPart4 ++ custom_prompt ++ promptPart5 ++ coldfusion_code ++ promptPart6, ?_⟩
  simp only [convertRequest, base_prompt, hl, String.append_assoc]

/-- Witness for C2 at the unknown key "rust". -/
theorem unknown_key_display_fallback_witness :
    supported_languages.lookup "rust" = none ∧
    (displayLabel "rust" = "rust" ∧
      (convert_code apiBoom "<cfset x = 1>" "rust" "").2 =
        [convertRequest "<cfset x = 1>" "rust" ""] ∧
      (∃ pre post, (convertRequest "<cfset x = 1>" "rust" "").user_message =
        pre ++ "rust" ++ post)) :=
  ⟨by decide, unknown_key_display_fallback apiBoom "<cfset x = 1>" "rust" "" (by decide)⟩

/-- C5: any exception raised by the external completion call is caught
at the call site and reported as `{'success': False, 'error': str(e)}`;
the single request list shows the call was made once and never
retried, and `convert_code` is total, so nothing propagates. -/
theorem upstream_error_caught (api : ApiRequest → Except String ApiResponse)
    (coldfusion_code target_language custom_prompt e : String)
    (h : api (convertRequest coldfusion_code target_language custom_prompt) = .error e) :
    convert_code api coldfusion_code target_language custom_prompt =
      (.err e, [convertRequest coldfusion_code target_language custom_prompt]) := by
  unfold convert_code
  rw [h]

/-- Witness for C5 with the always-raising oracle `apiBoom`. -/
theorem upstream_error_caught_witness :
    apiBoom (convertRequest "<cfset x = 1>" "python" "") = .error "boom" ∧
    convert_code apiBoom "<cfset x = 1>" "python" "" =
      (.err "boom", [convertRequest "<cfset x = 1>" "python" ""]) :=
  ⟨rfl, upstream_error_caught apiBoom "<cfset x = 1>" "python" "" "boom" rfl⟩

/-- C3: whenever the effective source text of a `/convert` request
(after any file-upload substitution) is empty or whitespace-only, the
response is `{'success': False, 'error': 'No ColdFusion code provided'}`
and no outbound API call is made. -/
theorem blank_source_rejected (api : ApiRequest → Except String ApiResponse)
    (form : ConvertForm) (s : String)
    (hs : effectiveSource form = some s) (hb : pyBlank s = true) :
    (convert_route api form).response = .err "No ColdFusion code provided" ∧
    (convert_route api form).apiCalls = [] := by
  obtain ⟨fs, hr⟩ := route_matches_effective api form s hs
  rw [hr]
  constructor <;> simp only [route_core, validate_and_convert, hb, if_true]

/-- Witness for C3: whitespace-only inline source, no upload. -/
theorem blank_source_rejected_witness :
    effectiveSource ⟨some "python", "", "  \t\n", none⟩ = some "  \t\n" ∧
    pyBlank "  \t\n" = true ∧
    ((convert_route apiBoom ⟨some "python", "", "  \t\n", none⟩).response =
        .err "No ColdFusion code provided" ∧
      (convert_route apiBoom ⟨some "python", "", "  \t\n", none⟩).apiCalls = []) :=
  ⟨by decide, by decide,
    blank_source_rejected apiBoom ⟨some "python", "", "  \t\n", none⟩ "  \t\n"
      (by decide) (by decide)⟩

/-- C4: a `/convert` request with non-blank source text but no
`target_language` form field gets
`{'success': False, 'error': 'No target language specified'}` and no
outbound API call is made. -/
theorem missing_target_rejected (api : ApiRequest → Except String ApiResponse)
    (form : ConvertForm) (s : String)
    (hs : effectiveSource form = some s) (hb : pyBlank s = false)
    (ht : form.target_language = none) :
    (convert_route api form).response = .err "No target language specified" ∧
    (convert_route api form).apiCalls = [] := by
  obtain ⟨fs, hr⟩ := route_matches_effective api form s hs
  rw [hr]
  constructor <;>
    simp only [route_core, validate_and_convert, hb, Bool.false_eq_true, if_false,
      ht, optFalsy, if_true]

/-- Witness for C4: non-blank inline source, absent target field. -/
theorem missing_target_rejected_witness :
    effectiveSource ⟨none, "", "<cfset x = 1>", none⟩ = some "<cfset x = 1>" ∧
    pyBlank "<cfset x = 1>" = false ∧
    (⟨none, "", "<cfset x = 1>", (none : Option Upload)⟩ : ConvertForm).target_language = none ∧
    ((convert_route apiBoom ⟨none, "", "<cfset x = 1>", none⟩).response =
        .err "No target language specified" ∧
      (convert_route apiBoom ⟨none, "", "<cfset x = 1>", none⟩).apiCalls = []) :=
  ⟨by decide, by decide, rfl,
    missing_target_rejected apiBoom ⟨none, "", "<cfset x = 1>", none⟩ "<cfset x = 1>"
      (by decide) (by decide) rfl⟩

/-- C6: an upload with an allowed extension makes the route behave, in
response and outbound calls, exactly as if the decoded file content had
been submitted as `code_input` (the upload supersedes the inline text);
an upload with a disallowed extension is ignored entirely, the route
behaving as if no file had been sent. -/
theorem upload_supersedes_inline (api : ApiRequest → Except String ApiResponse)
    (form : ConvertForm) (u : Upload)
    (hf : form.file = some u) (hname : u.filename.data.isEmpty = false) :
    convert_route api form =
      (if allowed_file u.filename then
        match u.content with
        | .ok text =>
          { convert_route api { form with file := none, code_input := text } with
              fsEvents := [.save u.filename, .remove u.filename] }
        | .error e =>
          { response := .err e, apiCalls := [], fsEvents := [.save u.filename] }
      else convert_route api { form with file := none }) := by
  by_cases hallow : allowed_file u.filename = true
  · simp only [hallow, if_true]
    cases hc : u.content with
    | ok text =>
      simp only [convert_route, hf, hname, Bool.not_false, Bool.true_and, hallow,
        if_true, hc, route_core]
    | error e =>
      simp only [convert_route, hf, hname, Bool.not_false, Bool.true_and, hallow,
        if_true, hc]
  · have hallow' : allowed_file u.filename = false := Bool.eq_false_iff.mpr hallow
    simp only [hallow', Bool.false_eq_true, if_false, convert_route, hf, hname,
      Bool.not_false, Bool.true_and, route_core]

/-- Witness for C6 at an accepted `.cfm` upload whose content
supersedes non-blank inline text. -/
theorem upload_supersedes_inline_witness :
    (⟨some "python", "", "inline code", some ⟨"legacy.cfm", .ok "<cfoutput>#x#</cfoutput>"⟩⟩ :
        ConvertForm).file = some ⟨"legacy.cfm", .ok "<cfoutput>#x#</cfoutput>"⟩ ∧
    ("legacy.cfm" : String).data.isEmpty = false ∧
    convert_route apiBoom
        ⟨some "python", "", "inline code", some ⟨"legacy.cfm", .ok "<cfoutput>#x#</cfoutput>"⟩⟩ =
      (if allowed_file "legacy.cfm" then
        match (Except.ok "<cfoutput>#x#</cfoutput>" : Except String String) with
        | .ok text =>
          { convert_route apiBoom
              { (⟨some "python", "", "inline code",
                  some ⟨"legacy.cfm", .ok "<cfoutput>#x#</cfoutput>"⟩⟩ : ConvertForm) with
                file := none, code_input := text } with
              fsEvents := [.save "legacy.cfm", .remove "legacy.cfm"] }
        | .error e =>
          { response := .err e, apiCalls := [], fsEvents := [.save "legacy.cfm"] }
      else convert_route apiBoom
        { (⟨some "python", "", "inline code",
            some ⟨"legacy.cfm", .ok "<cfoutput>#x#</cfoutput>"⟩⟩ : ConvertForm) with
          file := none }) :=
  ⟨rfl, by decide,
    upload_supersedes_inline apiBoom
      ⟨some "python", "", "inline code", some ⟨"legacy.cfm", .ok "<cfoutput>#x#</cfoutput>"⟩⟩
      ⟨"legacy.cfm", .ok "<cfoutput>#x#</cfoutput>"⟩ rfl (by decide)⟩

/-- A request whose accepted `.cfm` upload fails to decode as UTF-8. -/
def decodeFailForm : ConvertForm :=
  { target_language := some "python"
    custom_prompt := ""
    code_input := "<cfset x = 1>"
    file := some ⟨"legacy.cfm", .error "utf-8 codec cannot decode byte 0xff"⟩ }

/-- Counterexample to C7: on a request whose accepted upload raises
while being read back (e.g. a UnicodeDecodeError), the temporary file
is saved but never removed — `os.remove` (app.py:136) is skipped
because the exception jumps to the route's outer `except`. -/
theorem temp_file_leaked_on_decode_error :
    FsEvent.save "legacy.cfm" ∈ (convert_route apiBoom decodeFailForm).fsEvents ∧
    FsEvent.remove "legacy.cfm" ∉ (convert_route apiBoom decodeFailForm).fsEvents ∧
    (convert_route apiBoom decodeFailForm).response =
      .err "utf-8 codec cannot decode byte 0xff" := by
  decide

/-- C7 amended: the temporary upload file is removed exactly on the
exit path where reading it back succeeds (saved then immediately
removed); when the read raises, the file is saved and never removed. -/
theorem temp_file_removed_on_read_success (api : ApiRequest → Except String ApiResponse)
    (form : ConvertForm) (u : Upload)
    (hf : form.file = some u) (hname : u.filename.data.isEmpty = false)
    (hallow : allowed_file u.filename = true) :
    (convert_route api form).fsEvents =
      (match u.content with
       | .ok _ => [FsEvent.save u.filename, FsEvent.remove u.filename]
       | .error _ => [FsEvent.save u.filename]) := by
  cases hc : u.content with
  | ok text =>
    simp only [convert_route, hf, hname, Bool.not_false, Bool.true_and, hallow,
      if_true, hc, route_core]
  | error e =>
    simp only [convert_route, hf, hname, Bool.not_false, Bool.true_and, hallow,
      if_true, hc]

/-- Witness for C7 amended: an accepted upload that decodes fine is
saved and then removed. -/
theorem temp_file_removed_on_read_success_witness :
    (⟨some "python", "", "", some ⟨"q.cfc", .ok "<cfcomponent/>"⟩⟩ : ConvertForm).file =
      some ⟨"q.cfc", .ok "<cfcomponent/>"⟩ ∧
    ("q.cfc" : String).data.isEmpty = false ∧
    allowed_file "q.cfc" = true ∧
    (convert_route apiBoom ⟨some "python", "", "", some ⟨"q.cfc", .ok "<cfcomponent/>"⟩⟩).fsEvents =
      (match (Except.ok "<cfcomponent/>" : Except String String) with
       | .ok _ => [FsEvent.save "q.cfc", FsEvent.remove "q.cfc"]
       | .error _ => [FsEvent.save "q.cfc"]) :=
  ⟨rfl, by decide, by decide,
    temp_file_removed_on_read_success apiBoom
      ⟨some "python", "", "", some ⟨"q.cfc", .ok "<cfcomponent/>"⟩⟩
      ⟨"q.cfc", .ok "<cfcomponent/>"⟩ rfl (by decide) (by decide)⟩

/-- C8: when `OPENAI_API_KEY` is absent from the environment, the
`__main__` startup sequence exits with status 1 before `app.run`, so
no request is ever served and the missing key cannot surface as a
per-request error. -/
theorem missing_key_fatal_at_startup (env_port : Option Nat) :
    main_guard none env_port = .exited 1 ∧
    servesRequests (main_guard none env_port) = false :=
  ⟨rfl, rfl⟩

/-- C9: `GET /health` returns status "healthy" together with exactly
the keys of the supported-language map, and makes no outbound API
call. -/
theorem health_check_spec :
    health_check.1.status = "healthy" ∧
    health_check.1.supported_langs = supported_languages.map Prod.fst ∧
    health_check.1.supported_langs = ["react", "ruby", "python", "php", "java", "csharp"] ∧
    health_check.2 = [] :=
  ⟨rfl, rfl, by decide, rfl⟩

/-- C10 (implicit behavior): an accepted upload whose decoded content
is blank replaces even non-blank inline `code_input`, so the request
fails with "No ColdFusion code provided" and no outbound call despite
usable inline source text having been supplied. -/
theorem blank_upload_masks_inline (api : ApiRequest → Except String ApiResponse)
    (form : ConvertForm) (u : Upload) (text : String)
    (hf : form.file = some u) (hname : u.filename.data.isEmpty = false)
    (hallow : allowed_file u.filename = true) (hc : u.content = .ok text)
    (hblank : pyBlank text = true) (hinline : pyBlank form.code_input = false) :
    (convert_route api form).response = .err "No ColdFusion code provided" ∧
    (convert_route api form).apiCalls = [] := by
  constructor <;>
    simp only [convert_route, hf, hname, Bool.not_false, Bool.true_and, hallow,
      if_true, hc, route_core, validate_and_convert, hblank]

/-- Witness for C10: a whitespace-only `.cfm` upload masking non-blank
inline source. -/
theorem blank_upload_masks_inline_witness :
    (⟨some "python", "", "<cfset y = 2>", some ⟨"empty.cfm", .ok "   "⟩⟩ : ConvertForm).file =
      some ⟨"empty.cfm", .ok "   "⟩ ∧
    ("empty.cfm" : String).data.isEmpty = false ∧
    allowed_file "empty.cfm" = true ∧
    pyBlank "   " = true ∧
    pyBlank "<cfset y = 2>" = false ∧
    ((convert_route apiBoom ⟨some "python", "", "<cfset y = 2>", some ⟨"empty.cfm", .ok "   "⟩⟩).response =
        .err "No ColdFusion code provided" ∧
      (convert_route apiBoom ⟨some "python", "", "<cfset y = 2>", some ⟨"empty.cfm", .ok "   "⟩⟩).apiCalls = []) :=
  ⟨rfl, by decide, by decide, by decide, by decide,
    blank_upload_masks_inline apiBoom
      ⟨some "python", "", "<cfset y = 2>", some ⟨"empty.cfm", .ok "   "⟩⟩
      ⟨"empty.cfm", .ok "   "⟩ "   " rfl (by decide) (by decide) rfl (by decide) (by decide)⟩
